import Mathlib

/-!
Verification of the usage-metering subsystem of the Crawl4AI API gateway:
tier-based rate limiting, quota tracking against the billing provider,
overage computation, billing-event emission, and response-header rendering.

The definitions below are a shallow embedding of the TypeScript policy
modules (`quota-headers.ts`, `billing.ts`, `rate-limiting.ts`).  JavaScript
numbers holding request counts are modelled as `Nat`/`Int`.  The decimal
dollar amounts (`OVERAGE_RATES`, estimated overage cost) are modelled in
integer cents: the source stores dollars per 1000 requests (e.g. `0.50`),
we store hundredths of a dollar per 1000 requests (e.g. `50`), and the
formatting function renders `cents` as the `toFixed(2)` dollar string.
JavaScript truthiness tests on strings/options (`x || d`, `if (!x)`) are
modelled explicitly (`jsStrOr`, `optTruthy`, `jsNumOr`).  Asynchronous
I/O (cache reads, provider HTTP calls) is modelled by passing the outcome
of the external call as an explicit argument and returning the attempted
effects (was the provider called? what cache write was attempted?) as
data in the result.
-/

namespace Crawl4ai

/-- JavaScript `o || d` for an optional string: `undefined` and the empty
string are falsy. -/
def jsStrOr (o : Option String) (d : String) : String :=
  match o with
  | none => d
  | some s => if s.isEmpty then d else s

/-- JavaScript truthiness of an optional string (`undefined` and `""` are
falsy). -/
def optTruthy (o : Option String) : Bool :=
  match o with
  | none => false
  | some s => !s.isEmpty

/-- JavaScript `o || d` for an optional number: `undefined` and `0` are
falsy (used for the `TIER_QUOTAS[tier] || TIER_QUOTAS.free` lookups). -/
def jsNumOr (o : Option Nat) (d : Nat) : Nat :=
  match o with
  | none => d
  | some x => if x = 0 then d else x

/-- `TIER_QUOTAS` of `quota-headers.ts` (monthly request quotas);
record lookup of a missing key yields `undefined`, hence `Option`. -/
def TIER_QUOTAS (t : String) : Option Nat :=
  if t = "free" then some 10000
  else if t = "crawler" then some 100000
  else if t = "spider" then some 1000000
  else if t = "enterprise" then some 10000000
  else none

/-- `OVERAGE_RATES` of `quota-headers.ts`, in cents per 1000 requests
(the source stores dollars: free `0`, crawler `0.50`, spider `0.20`,
enterprise `0.10`). -/
def OVERAGE_RATES (t : String) : Option Nat :=
  if t = "free" then some 0
  else if t = "crawler" then some 50
  else if t = "spider" then some 20
  else if t = "enterprise" then some 10
  else none

/-- `TIER_LIMITS` of `rate-limiting.ts` (and its copy in `billing.ts`):
requests per hour. -/
def TIER_LIMITS (t : String) : Option Nat :=
  if t = "free" then some 100
  else if t = "crawler" then some 280
  else if t = "spider" then some 1388
  else if t = "enterprise" then some 13888
  else none

/-- `TIER_QUOTAS[tier] || TIER_QUOTAS.free` (with `TIER_QUOTAS.free = 10000`). -/
def resolveQuota (t : String) : Nat :=
  jsNumOr (TIER_QUOTAS t) 10000

/-- `OVERAGE_RATES[tier] || 0`, in cents per 1000 requests. -/
def resolveOverageRate (t : String) : Nat :=
  jsNumOr (OVERAGE_RATES t) 0

/-- `TIER_LIMITS[tier] || TIER_LIMITS.free` (with `TIER_LIMITS.free = 100`). -/
def resolveRateLimit (t : String) : Nat :=
  jsNumOr (TIER_LIMITS t) 100

/-! ### Consumer identity (`request.user`) -/

/-- Consumer metadata (`user.data`); every field may be absent. -/
structure UserData where
  tier : Option String
  stripeSubscriptionId : Option String
  stripeSubscriptionItemId : Option String
deriving DecidableEq

/-- Authenticated consumer (`request.user`); `request.user` itself may be
absent, hence callers take `Option User`. -/
structure User where
  sub : String
  data : Option UserData
deriving DecidableEq

/-- `(user?.data?.tier as string) || "free"`. -/
def userTier (user : Option User) : String :=
  jsStrOr (user.bind fun u => u.data.bind fun d => d.tier) "free"

/-- `user.data?.stripeSubscriptionItemId` threaded through the optional
user (absent user yields `undefined`). -/
def billingUserItemId (user : Option User) : Option String :=
  user.bind fun u => u.data.bind fun d => d.stripeSubscriptionItemId

/-! ### Headers and responses

Fetch-API `Headers` are case-insensitive; we model a `Headers` object as
an association list whose stored keys are lowercased, with `headerSet`
replacing any previous entry for the same (case-insensitive) name. -/

/-- Lowercase a string character-by-character (the case-insensitive key
normalisation performed by the `Headers` class). -/
def lowerStr (s : String) : String :=
  ⟨s.data.map Char.toLower⟩

/-- The entries of a `Headers` object. -/
abbrev HeaderList := List (String × String)

/-- `headers.set(k, v)`: replace any entry with the same
case-insensitive name, then add the new entry. -/
def headerSet (hs : HeaderList) (k v : String) : HeaderList :=
  hs.filter (fun p => p.1 != lowerStr k) ++ [(lowerStr k, v)]

/-- `headers.get(k)`. -/
def headerGet (hs : HeaderList) (k : String) : Option String :=
  (hs.find? (fun p => p.1 == lowerStr k)).map Prod.snd

/-- `headers.has(k)`. -/
def hasHeader (hs : HeaderList) (k : String) : Bool :=
  (headerGet hs k).isSome

/-- An HTTP response: status code, body, and headers. -/
structure Response where
  status : Nat
  body : String
  headers : HeaderList
deriving DecidableEq

/-! ### Quota evaluation (`quota-headers.ts`, inbound policy) -/

/-- The `QuotaInfo` record attached to `request.user.data.quotaInfo`.
`remaining` and `overage` are the results of `Math.max(0, ...)` over
(integer-valued) JS numbers, hence `Int`; `overageRate` is in cents per
1000 requests. -/
structure QuotaInfo where
  limit : Nat
  used : Nat
  remaining : Int
  overage : Int
  isOverage : Bool
  overageRate : Nat
  resetDate : String
  tier : String
deriving DecidableEq

/-- The quota computation of the inbound policy (lines 316-331 of
`quota-headers.ts`): `remaining = Math.max(0, quota - usage)`,
`overage = Math.max(0, usage - quota)`, `isOverage = usage >= quota`. -/
def computeQuotaInfo (tier : String) (usage : Nat) (resetDate : String) : QuotaInfo :=
  let quota := resolveQuota tier
  { limit := quota
    used := usage
    remaining := max 0 ((quota : Int) - (usage : Int))
    overage := max 0 ((usage : Int) - (quota : Int))
    isOverage := decide (quota ≤ usage)
    overageRate := resolveOverageRate tier
    resetDate := resetDate
    tier := tier }

/-! ### Billing-provider usage query (`getMonthlyUsage`) -/

/-- One usage-period record of the provider's response body;
`total_usage` may be absent. -/
structure UsageRecord where
  total_usage : Option Nat
deriving DecidableEq

/-- Outcome of the provider's usage-query HTTP call: a thrown network
error, a non-2xx response, a 2xx response whose body fails to parse, or a
parsed body carrying the list `data.data` of usage records (an absent
`data.data` field is the empty list). -/
inductive UsageQueryResult where
  | netError
  | httpError (status : Nat)
  | malformed
  | ok (records : List UsageRecord)
deriving DecidableEq

/-- The failure modes of the usage query (everything except a parsed
2xx body). -/
def isProviderFailure (r : UsageQueryResult) : Bool :=
  match r with
  | .ok _ => false
  | _ => true

/-- `getMonthlyUsage` of `quota-headers.ts`: returns the first (most
recent) record's `total_usage || 0`, and `0` on empty data or on any
failure (fail open; the function never throws). -/
def getMonthlyUsage (r : UsageQueryResult) : Nat :=
  match r with
  | .netError => 0
  | .httpError _ => 0
  | .malformed => 0
  | .ok [] => 0
  | .ok (rec :: _) => rec.total_usage.getD 0

/-! ### Usage cache (`getCachedUsage`) -/

/-- `CACHE_TTL = 60 * 1000` milliseconds. -/
def CACHE_TTL : Int := 60 * 1000

/-- The `CachedUsage` record stored in the shared cache. -/
structure CachedUsage where
  usage : Nat
  timestamp : Int
deriving DecidableEq

/-- Outcome of the cache read in `getCachedUsage`: a thrown read/parse
error, no entry (or a falsy one), or a parsed `CachedUsage` entry. -/
inductive CacheRead where
  | readError
  | miss
  | hit (c : CachedUsage)
deriving DecidableEq

/-- What one call to `getCachedUsage` computed and attempted: the usage
count returned to the caller, whether the provider was queried, and the
cache write that was attempted (`none` when no write was attempted). -/
structure UsageFetchResult where
  usage : Nat
  providerCalled : Bool
  cacheWrite : Option CachedUsage
deriving DecidableEq

/-- `getCachedUsage` of `quota-headers.ts`: serve a cached entry younger
than `CACHE_TTL`; otherwise (miss, read error, or stale entry) query the
provider via `getMonthlyUsage` and write the result back to the cache
with the current timestamp.  The write-back is attempted regardless of
whether the provider call succeeded, since `getMonthlyUsage` absorbs its
failures into a `0` count. -/
def getCachedUsage (read : CacheRead) (now : Int) (resp : UsageQueryResult) :
    UsageFetchResult :=
  match read with
  | .hit c =>
    if now - c.timestamp < CACHE_TTL then
      { usage := c.usage, providerCalled := false, cacheWrite := none }
    else
      { usage := getMonthlyUsage resp
        providerCalled := true
        cacheWrite := some { usage := getMonthlyUsage resp, timestamp := now } }
  | _ =>
    { usage := getMonthlyUsage resp
      providerCalled := true
      cacheWrite := some { usage := getMonthlyUsage resp, timestamp := now } }

/-! ### Reset date (`getResetDate`) -/

/-- Decimal digits of `n`, two places (`toFixed`-style zero padding). -/
def pad2 (n : Nat) : String :=
  if n < 10 then "0" ++ toString n else toString n

/-- Decimal digits of `n`, four places (the year field of
`toISOString`). -/
def pad4 (n : Nat) : String :=
  if n < 10 then "000" ++ toString n
  else if n < 100 then "00" ++ toString n
  else if n < 1000 then "0" ++ toString n
  else toString n

/-- `getResetDate` of `quota-headers.ts`, as a function of the current
date's `getFullYear()` and zero-based `getMonth()`:
`new Date(year, month + 1, 1)` (with the JS `Date` month/year
normalisation) rendered as the `YYYY-MM-DD` part of `toISOString()`,
taking the runtime clock to be UTC. -/
def getResetDate (year month : Nat) : String :=
  let y := year + (month + 1) / 12
  let m := (month + 1) % 12
  pad4 y ++ "-" ++ pad2 (m + 1) ++ "-01"

/-- Modelled from the spec: "resetDate = first calendar day of the month
following the current date, formatted as an ISO date (YYYY-MM-DD)".
`month` here is the 1-based calendar month of the current date; the
month following December is January of the next year. -/
def firstDayOfFollowingMonthSpec (year month : Nat) : String :=
  let y := if month = 12 then year + 1 else year
  let m := if month = 12 then 1 else month + 1
  pad4 y ++ "-" ++ pad2 m ++ "-01"

/-! ### Quota headers (outbound policy of `quota-headers.ts`) -/

/-- Render `cents` as the `toFixed(2)` dollar string (e.g. `250 ↦ "2.50"`). -/
def formatDollars (cents : Nat) : String :=
  toString (cents / 100) ++ "." ++ pad2 (cents % 100)

/-- The estimated overage cost `(overage / 1000) * overageRate` of the
warning header, in cents rounded to the nearest cent (the `toFixed(2)`
rendering of the source's exact decimal value). -/
def estimatedCostCents (q : QuotaInfo) : Nat :=
  ((q.overage * (q.overageRate : Int) + 500).fdiv 1000).toNat

/-- The `X-Quota-Warning` header value. -/
def quotaWarningText (q : QuotaInfo) : String :=
  "Quota exceeded. Current overage: " ++ toString q.overage ++
    " requests (~$" ++ formatDollars (estimatedCostCents q) ++ ")"

/-- The six unconditional `newHeaders.set` calls of the outbound quota
policy, applied to the clone of the backend response's headers. -/
def quotaBaseHeaders (resp : Response) (q : QuotaInfo) : HeaderList :=
  headerSet (headerSet (headerSet (headerSet (headerSet (headerSet resp.headers
    "X-Quota-Limit" (toString q.limit))
    "X-Quota-Used" (toString q.used))
    "X-Quota-Remaining" (toString q.remaining))
    "X-Quota-Overage" (toString q.overage))
    "X-Quota-Reset-Date" q.resetDate)
    "X-Quota-Tier" q.tier

/-- The outbound quota-headers policy: return the response unmodified
when no `quotaInfo` is attached; otherwise build a new response with the
same status and body, the quota headers, the overage-rate header only
when `overageRate > 0`, and the warning header only when `isOverage`. -/
def quotaHeadersPolicy (resp : Response) (qi : Option QuotaInfo) : Response :=
  match qi with
  | none => resp
  | some q =>
    let hs1 := quotaBaseHeaders resp q
    let hs2 := if 0 < q.overageRate then
        headerSet hs1 "X-Quota-Overage-Rate" ("$" ++ formatDollars q.overageRate ++ "/1k")
      else hs1
    let hs3 := if q.isOverage then
        headerSet hs2 "X-Quota-Warning" (quotaWarningText q)
      else hs2
    { status := resp.status, body := resp.body, headers := hs3 }

/-! ### Billing reporter (`billing.ts`, outbound policy) -/

/-- The environment variables consulted by the billing policies. -/
structure Env where
  STRIPE_MODE : Option String
  STRIPE_SECRET_KEY_TEST : Option String
  STRIPE_SECRET_KEY_LIVE : Option String
deriving DecidableEq

/-- Key selection: `STRIPE_MODE || "test"`, then the live or test secret. -/
def stripeKeyFor (env : Env) : Option String :=
  if jsStrOr env.STRIPE_MODE "test" = "live" then env.STRIPE_SECRET_KEY_LIVE
  else env.STRIPE_SECRET_KEY_TEST

/-- The usage record submitted to the provider's usage-increment
endpoint. -/
structure BillingEvent where
  subscriptionItemId : String
  quantity : Nat
deriving DecidableEq

/-- The gating of the outbound billing policy of `billing.ts`: skip on
non-2xx status, missing user, missing/empty `stripeSubscriptionItemId`,
or missing/empty provider key; otherwise fire one usage record with
quantity 1. -/
def billingDecision (status : Nat) (user : Option User) (env : Env) :
    Option BillingEvent :=
  if status < 200 ∨ 300 ≤ status then none
  else if user.isNone then none
  else
    match billingUserItemId user with
    | none => none
    | some itemId =>
      if itemId.isEmpty then none
      else if optTruthy (stripeKeyFor env) then
        some { subscriptionItemId := itemId, quantity := 1 }
      else none

/-- The outbound billing policy: the decision above plus the returned
response, which is the original response in every branch — the
submission runs detached (`.then`/`.catch` only log), so its outcome
cannot influence the response. -/
def billingPolicy (resp : Response) (user : Option User) (env : Env) :
    Response × Option BillingEvent :=
  (resp, billingDecision resp.status user env)

/-! ### Rate limiting (`rate-limiting.ts`) -/

/-- The `CustomRateLimitDetails` returned by `rateLimitByTier`. -/
structure RateLimitDetails where
  key : String
  requestsAllowed : Nat
  timeWindowMinutes : Nat
deriving DecidableEq

/-- `rateLimitByTier` of `rate-limiting.ts`. -/
def rateLimitByTier (user : Option User) : RateLimitDetails :=
  { key := jsStrOr (user.map User.sub) "anonymous"
    requestsAllowed := resolveRateLimit (userTier user)
    timeWindowMinutes := 60 }

/-! ### Rate-limit headers (outbound policy of `billing.ts`) -/

/-- The parsed rate-limit window state read from the shared cache;
`data.count` and `data.windowStart` may each be absent.  `windowStart`
is the epoch-millisecond value of `new Date(data.windowStart).getTime()`. -/
structure RateWindowData where
  count : Option Nat
  windowStart : Option Int
deriving DecidableEq

/-- Outcome of the cache read in the rate-limit headers policy. -/
inductive RLCacheRead where
  | readError
  | miss
  | hit (d : RateWindowData)
deriving DecidableEq

/-- `Math.ceil(a / b)` for integers (`b > 0`), exact in the integer
range used here. -/
def jsCeilDiv (a b : Int) : Int :=
  -((-a).fdiv b)

/-- The outbound rate-limit headers policy of `billing.ts`: compute
`remaining = Math.max(0, requestsAllowed - (data.count || 0))` and the
clamped reset time from `windowStart` (defaulting to the full allowance
and a 3600-second reset on cache miss or error), then set the standard
and legacy headers on the response. -/
def rateLimitHeadersPolicy (resp : Response) (user : Option User) (read : RLCacheRead)
    (now : Int) : Response :=
  let requestsAllowed := resolveRateLimit (userTier user)
  let remaining : Int :=
    match read with
    | .hit d => max 0 ((requestsAllowed : Int) - (d.count.getD 0 : Int))
    | _ => (requestsAllowed : Int)
  let resetTime : Int :=
    match read with
    | .hit d =>
      match d.windowStart with
      | some ws => max 0 (jsCeilDiv (3600000 - (now - ws)) 1000)
      | none => 3600
    | _ => 3600
  let hs := headerSet resp.headers "RateLimit-Limit" (toString requestsAllowed)
  let hs := headerSet hs "RateLimit-Remaining" (toString remaining)
  let hs := headerSet hs "RateLimit-Reset" (toString resetTime)
  let hs := headerSet hs "X-RateLimit-Limit" (toString requestsAllowed)
  let hs := headerSet hs "X-RateLimit-Remaining" (toString remaining)
  let hs := headerSet hs "X-RateLimit-Reset" (toString resetTime)
  { status := resp.status, body := resp.body, headers := hs }

/-! ### Concrete fixtures used by the witness theorems -/

/-- A spider-tier consumer without a billing account. -/
def spiderUser : User := ⟨"alice", some ⟨some "spider", none, none⟩⟩

/-- A crawler-tier consumer with a billing account. -/
def crawlerUser : User := ⟨"bob", some ⟨some "crawler", some "sub_1", some "si_1"⟩⟩

/-- A test-mode environment with a configured test key. -/
def envTest : Env := ⟨some "test", some "sk_abc", none⟩

/-- A plain 200 backend response with no headers. -/
def okResponse : Response := ⟨200, "ok", []⟩

/-! ### Header-lookup lemmas -/

theorem find?_filter_ne_self (hs : HeaderList) (a : String) :
    (hs.filter fun p => p.1 != a).find? (fun p => p.1 == a) = none := by
  rw [List.find?_eq_none]
  intro x hx
  have h := (List.mem_filter.mp hx).2
  simp only [bne_iff_ne, ne_eq] at h
  simp [h]

theorem find?_filter_ne_other (hs : HeaderList) (a b : String) (hab : a ≠ b) :
    (hs.filter fun p => p.1 != a).find? (fun p => p.1 == b) =
      hs.find? (fun p => p.1 == b) := by
  have hba : (a == b) = false := beq_eq_false_iff_ne.mpr hab
  have hab2 : ¬(b = a) := fun e => hab e.symm
  induction hs with
  | nil => rfl
  | cons p t ih =>
    by_cases h : p.1 = a
    · have hb : (p.1 == b) = false := by simp [h, hab]
      simp [List.filter_cons, h, List.find?_cons, hb, ih, hba]
    · by_cases h2 : p.1 = b
      · simp [List.filter_cons, List.find?_cons, h, h2, hab2]
      · simp [List.filter_cons, List.find?_cons, h, h2, ih]

theorem headerGet_set_self (hs : HeaderList) (k v : String) :
    headerGet (headerSet hs k v) k = some v := by
  unfold headerGet headerSet
  rw [List.find?_append, find?_filter_ne_self]
  simp [List.find?]

theorem headerGet_set_other (hs : HeaderList) (k k2 v : String)
    (h : lowerStr k ≠ lowerStr k2) :
    headerGet (headerSet hs k v) k2 = headerGet hs k2 := by
  unfold headerGet headerSet
  rw [List.find?_append, find?_filter_ne_other hs (lowerStr k) (lowerStr k2) h]
  have hb : ((lowerStr k, v).1 == lowerStr k2) = false := by simp [h]
  simp [List.find?, hb]

end Crawl4ai

/-! ## Claim theorems -/

namespace Crawl4ai

/-- C1: For every usage count `u ≥ 0` and tier limit `L = resolveQuota tier`,
the QuotaState computed by the quota evaluator satisfies
`remaining = max(0, L - u)`, `overage = max(0, u - L)`, `isOverage` holds
if and only if `u ≥ L`, and `remaining` and `overage` are never both
positive. -/
theorem quota_state_invariants (tier : String) (u : Nat) (rd : String) :
    (computeQuotaInfo tier u rd).remaining
        = max 0 ((resolveQuota tier : Int) - (u : Int)) ∧
    (computeQuotaInfo tier u rd).overage
        = max 0 ((u : Int) - (resolveQuota tier : Int)) ∧
    ((computeQuotaInfo tier u rd).isOverage = true ↔ resolveQuota tier ≤ u) ∧
    ¬(0 < (computeQuotaInfo tier u rd).remaining ∧
      0 < (computeQuotaInfo tier u rd).overage) := by
  refine ⟨rfl, rfl, by simp [computeQuotaInfo], ?_⟩
  rintro ⟨h1, h2⟩
  simp only [computeQuotaInfo, lt_max_iff] at h1 h2
  omega

/-- Closed instance of C1 at tier "crawler", usage 105000. -/
theorem quota_state_invariants_witness :
    ¬(0 < (computeQuotaInfo "crawler" 105000 "2024-02-01").remaining ∧
      0 < (computeQuotaInfo "crawler" 105000 "2024-02-01").overage) :=
  (quota_state_invariants "crawler" 105000 "2024-02-01").2.2.2

/-- C2: On every failure of the billing provider usage query (network
error, non-2xx, malformed body) the usage lookup returns `0` (it is a
total function, so no error reaches the caller), and the resulting
QuotaState has `isOverage = false` unless the tier's limit is itself 0. -/
theorem provider_failure_fail_open (r : UsageQueryResult)
    (h : isProviderFailure r = true) (tier rd : String) :
    getMonthlyUsage r = 0 ∧
    ((computeQuotaInfo tier (getMonthlyUsage r) rd).isOverage = true ↔
      resolveQuota tier = 0) := by
  have h0 : getMonthlyUsage r = 0 := by
    cases r with
    | ok records => simp [isProviderFailure] at h
    | netError => rfl
    | httpError s => rfl
    | malformed => rfl
  refine ⟨h0, ?_⟩
  rw [h0]
  simp [computeQuotaInfo, Nat.le_zero]

/-- Closed instance of C2 at a network error and tier "crawler". -/
theorem provider_failure_fail_open_witness :
    isProviderFailure UsageQueryResult.netError = true ∧
    getMonthlyUsage UsageQueryResult.netError = 0 ∧
    (computeQuotaInfo "crawler" (getMonthlyUsage UsageQueryResult.netError)
      "2024-02-01").isOverage = false := by
  refine ⟨by decide, (provider_failure_fail_open UsageQueryResult.netError
    (by decide) "crawler" "2024-02-01").1, ?_⟩
  have h := (provider_failure_fail_open UsageQueryResult.netError (by decide)
    "crawler" "2024-02-01").2
  simp only [Bool.not_eq_true] at h ⊢
  by_contra hc
  simp only [Bool.not_eq_false] at hc
  have := h.mp hc
  simp [resolveQuota, TIER_QUOTAS, jsNumOr] at this

/-- C3: `getCachedUsage` performs no provider call exactly when the cache
read is a hit younger than the 60-second TTL, in which case it returns
the cached count (and attempts no cache write); on miss, read error, or
a stale entry the provider is called. -/
theorem usage_cache_ttl (read : CacheRead) (now : Int) (resp : UsageQueryResult) :
    ((getCachedUsage read now resp).providerCalled = false ↔
      ∃ c : CachedUsage, read = CacheRead.hit c ∧ now - c.timestamp < CACHE_TTL) ∧
    (∀ c : CachedUsage, now - c.timestamp < CACHE_TTL →
      getCachedUsage (CacheRead.hit c) now resp =
        { usage := c.usage, providerCalled := false, cacheWrite := none }) := by
  constructor
  · cases read with
    | hit c =>
      by_cases h : now - c.timestamp < CACHE_TTL
      · simp [getCachedUsage, h]
      · simp [getCachedUsage, h]
    | miss => simp [getCachedUsage]
    | readError => simp [getCachedUsage]
  · intro c hc
    simp [getCachedUsage, hc]

/-- Closed instance of C3: a 1-second-old hit is served from cache. -/
theorem usage_cache_ttl_witness :
    getCachedUsage (CacheRead.hit { usage := 7, timestamp := 0 }) 1000
        UsageQueryResult.netError =
      { usage := 7, providerCalled := false, cacheWrite := none } :=
  (usage_cache_ttl (CacheRead.hit { usage := 7, timestamp := 0 }) 1000
    UsageQueryResult.netError).2 { usage := 7, timestamp := 0 } (by decide)

/-- C4 (counterexample): on a cache miss with a failed provider call,
`getCachedUsage` does attempt a cache write — it writes the zero-count
snapshot with the current timestamp, so the cache state is not left
unchanged on provider error. -/
theorem cache_write_on_failure_cex :
    isProviderFailure UsageQueryResult.netError = true ∧
    (getCachedUsage CacheRead.miss 1000 UsageQueryResult.netError).usage = 0 ∧
    (getCachedUsage CacheRead.miss 1000 UsageQueryResult.netError).cacheWrite =
      some { usage := 0, timestamp := 1000 } :=
  ⟨rfl, rfl, rfl⟩

/-- C4 (amended): the cache write-through happens exactly when the
provider is consulted, regardless of whether the provider call
succeeded: whenever the provider was called, the returned usage is the
provider result (0 on failure) and that same snapshot is written to the
cache; when the provider was not called nothing is written. -/
theorem cache_write_through (read : CacheRead) (now : Int) (resp : UsageQueryResult) :
    ((getCachedUsage read now resp).providerCalled = true →
      (getCachedUsage read now resp).usage = getMonthlyUsage resp ∧
      (getCachedUsage read now resp).cacheWrite =
        some { usage := getMonthlyUsage resp, timestamp := now }) ∧
    ((getCachedUsage read now resp).providerCalled = false →
      (getCachedUsage read now resp).cacheWrite = none) := by
  cases read with
  | hit c =>
    by_cases h : now - c.timestamp < CACHE_TTL
    · simp [getCachedUsage, h]
    · simp [getCachedUsage, h]
  | miss => simp [getCachedUsage]
  | readError => simp [getCachedUsage]

/-- Closed instance of the amended C4 at a cache miss and provider
failure. -/
theorem cache_write_through_witness :
    (getCachedUsage CacheRead.miss 1000 UsageQueryResult.netError).cacheWrite =
      some { usage := getMonthlyUsage UsageQueryResult.netError, timestamp := 1000 } :=
  ((cache_write_through CacheRead.miss 1000 UsageQueryResult.netError).1 (by decide)).2

/-- C5: the Billing Reporter always returns the original response (so a
failed submission cannot alter it), submits an event exactly when the
status is in [200, 300), the billing account reference
(`stripeSubscriptionItemId`) is present and non-empty, and a provider
key is configured, and every submitted event has quantity 1. -/
theorem billing_reporter_gating (resp : Response) (user : Option User) (env : Env) :
    (billingPolicy resp user env).1 = resp ∧
    ((billingPolicy resp user env).2.isSome = true ↔
      (200 ≤ resp.status ∧ resp.status < 300 ∧
        optTruthy (billingUserItemId user) = true ∧
        optTruthy (stripeKeyFor env) = true)) ∧
    (∀ e, (billingPolicy resp user env).2 = some e → e.quantity = 1) := by
  refine ⟨rfl, ?_, ?_⟩
  · show (billingDecision resp.status user env).isSome = true ↔ _
    unfold billingDecision
    by_cases hs : resp.status < 200 ∨ 300 ≤ resp.status
    · simp only [if_pos hs, Option.isSome_none, Bool.false_eq_true, false_iff]
      rintro ⟨h1, h2, _⟩
      omega
    · simp only [if_neg hs]
      cases user with
      | none => simp [billingUserItemId, optTruthy]
      | some u =>
        simp only [Option.isNone_some, Bool.false_eq_true, if_false]
        cases hitem : billingUserItemId (some u) with
        | none => simp [optTruthy]
        | some itemId =>
          by_cases hempty : itemId.isEmpty = true
          · have hi : optTruthy (some itemId) = false := by simp [optTruthy, hempty]
            simp [hempty, hi]
          · have hif : itemId.isEmpty = false := by simpa using hempty
            have hi : optTruthy (some itemId) = true := by simp [optTruthy, hif]
            by_cases hkey : optTruthy (stripeKeyFor env) = true
            · simp [hif, hkey, hi]
              omega
            · have hkf : optTruthy (stripeKeyFor env) = false := by simpa using hkey
              simp [hif, hkf, hi]
  · intro e he
    have he2 : billingDecision resp.status user env = some e := he
    unfold billingDecision at he2
    by_cases hs : resp.status < 200 ∨ 300 ≤ resp.status
    · rw [if_pos hs] at he2; cases he2
    · rw [if_neg hs] at he2
      cases user with
      | none => simp at he2
      | some u =>
        simp only [Option.isNone_some, Bool.false_eq_true, if_false] at he2
        cases hitem : billingUserItemId (some u) with
        | none => rw [hitem] at he2; cases he2
        | some itemId =>
          rw [hitem] at he2
          dsimp only at he2
          by_cases hempty : itemId.isEmpty = true
          · rw [if_pos hempty] at he2; cases he2
          · rw [if_neg hempty] at he2
            by_cases hkey : optTruthy (stripeKeyFor env) = true
            · rw [if_pos hkey] at he2
              injection he2 with h
              rw [← h]
            · rw [if_neg hkey] at he2; cases he2

/-- Closed instance of C5: a 200 response from a billed consumer in a
configured environment yields one quantity-1 event and the unchanged
response. -/
theorem billing_reporter_gating_witness :
    (billingPolicy okResponse (some crawlerUser) envTest).1 = okResponse ∧
    (billingPolicy okResponse (some crawlerUser) envTest).2.isSome = true ∧
    (∀ e, (billingPolicy okResponse (some crawlerUser) envTest).2 = some e →
      e.quantity = 1) := by
  have h := billing_reporter_gating okResponse (some crawlerUser) envTest
  exact ⟨h.1, h.2.1.mpr (by decide), h.2.2⟩

/-- C6: for every current date the quota evaluator's `resetDate` is the
first calendar day of the following month formatted as YYYY-MM-DD
(stated for the 1-based calendar month `month` of the current date,
whose JS `getMonth()` value is `month - 1`); computed on 2024-01-15 it
equals "2024-02-01" and on 2024-12-20 it equals "2025-01-01". -/
theorem reset_date_next_month (year month : Nat) (h1 : 1 ≤ month) (h2 : month ≤ 12) :
    getResetDate year (month - 1) = firstDayOfFollowingMonthSpec year month ∧
    getResetDate 2024 0 = "2024-02-01" ∧
    getResetDate 2024 11 = "2025-01-01" := by
  refine ⟨?_, by decide, by decide⟩
  interval_cases month <;> norm_num [getResetDate, firstDayOfFollowingMonthSpec]

/-- Closed instance of C6 at January 2024. -/
theorem reset_date_next_month_witness :
    getResetDate 2024 0 = firstDayOfFollowingMonthSpec 2024 1 ∧
    getResetDate 2024 0 = "2024-02-01" :=
  ⟨(reset_date_next_month 2024 1 (by decide) (by decide)).1,
   (reset_date_next_month 2024 1 (by decide) (by decide)).2.1⟩

/-- C7: every tier name outside the tier table resolves to exactly the
free tier's quota limit, overage rate, and request allowance, and an
absent tier name is replaced by "free". -/
theorem tier_fallback (t : String) (h : TIER_QUOTAS t = none) :
    resolveQuota t = resolveQuota "free" ∧
    resolveOverageRate t = resolveOverageRate "free" ∧
    resolveRateLimit t = resolveRateLimit "free" ∧
    userTier none = "free" := by
  have h1 : ¬(t = "free") := by rintro rfl; simp [TIER_QUOTAS] at h
  have h2 : ¬(t = "crawler") := by rintro rfl; simp [TIER_QUOTAS] at h
  have h3 : ¬(t = "spider") := by rintro rfl; simp [TIER_QUOTAS] at h
  have h4 : ¬(t = "enterprise") := by rintro rfl; simp [TIER_QUOTAS] at h
  refine ⟨?_, ?_, ?_, by decide⟩
  · simp [resolveQuota, TIER_QUOTAS, jsNumOr, h1, h2, h3, h4]
  · simp [resolveOverageRate, OVERAGE_RATES, jsNumOr, h1, h2, h3, h4]
  · simp [resolveRateLimit, TIER_LIMITS, jsNumOr, h1, h2, h3, h4]

/-- Closed instance of C7 at the unknown tier name "gold". -/
theorem tier_fallback_witness :
    resolveQuota "gold" = resolveQuota "free" ∧
    resolveOverageRate "gold" = resolveOverageRate "free" ∧
    resolveRateLimit "gold" = resolveRateLimit "free" :=
  ⟨(tier_fallback "gold" (by decide)).1, (tier_fallback "gold" (by decide)).2.1,
   (tier_fallback "gold" (by decide)).2.2.1⟩

/-- C9: the rate-limit decision always uses a 60-minute window, keys by
the caller's `sub` (or the "anonymous" sentinel when the identity is
absent), takes `requestsAllowed` from the tier table by the identity's
tier, and in particular returns 1388 for tier "spider". -/
theorem rate_limit_decision (user : Option User) :
    (rateLimitByTier user).timeWindowMinutes = 60 ∧
    (rateLimitByTier none).key = "anonymous" ∧
    (∀ u : User, ¬u.sub.isEmpty → (rateLimitByTier (some u)).key = u.sub) ∧
    (rateLimitByTier user).requestsAllowed = resolveRateLimit (userTier user) ∧
    (∀ u : User, (u.data.bind fun d => d.tier) = some "spider" →
      (rateLimitByTier (some u)).requestsAllowed = 1388) := by
  refine ⟨rfl, rfl, ?_, rfl, ?_⟩
  · intro u hu
    simp [rateLimitByTier, jsStrOr, hu]
  · intro u hu
    have ht : userTier (some u) = "spider" := by
      show jsStrOr (u.data.bind fun d => d.tier) "free" = "spider"
      rw [hu]
      decide
    show resolveRateLimit (userTier (some u)) = 1388
    rw [ht]
    decide

/-- Closed instance of C9 at a spider-tier consumer. -/
theorem rate_limit_decision_witness :
    (rateLimitByTier (some spiderUser)).key = "alice" ∧
    (rateLimitByTier (some spiderUser)).requestsAllowed = 1388 ∧
    (rateLimitByTier (some spiderUser)).timeWindowMinutes = 60 := by
  refine ⟨?_, ?_, (rate_limit_decision (some spiderUser)).1⟩
  · exact (rate_limit_decision (some spiderUser)).2.2.1 spiderUser (by decide)
  · exact (rate_limit_decision (some spiderUser)).2.2.2.2 spiderUser (by decide)

/-- The six unconditional quota headers never touch the overage-rate
header slot. -/
theorem quotaBase_get_rate (resp : Response) (q : QuotaInfo) :
    headerGet (quotaBaseHeaders resp q) "X-Quota-Overage-Rate" =
      headerGet resp.headers "X-Quota-Overage-Rate" := by
  unfold quotaBaseHeaders
  rw [headerGet_set_other _ _ _ _ (by decide), headerGet_set_other _ _ _ _ (by decide),
    headerGet_set_other _ _ _ _ (by decide), headerGet_set_other _ _ _ _ (by decide),
    headerGet_set_other _ _ _ _ (by decide), headerGet_set_other _ _ _ _ (by decide)]

/-- The six unconditional quota headers never touch the warning header
slot. -/
theorem quotaBase_get_warning (resp : Response) (q : QuotaInfo) :
    headerGet (quotaBaseHeaders resp q) "X-Quota-Warning" =
      headerGet resp.headers "X-Quota-Warning" := by
  unfold quotaBaseHeaders
  rw [headerGet_set_other _ _ _ _ (by decide), headerGet_set_other _ _ _ _ (by decide),
    headerGet_set_other _ _ _ _ (by decide), headerGet_set_other _ _ _ _ (by decide),
    headerGet_set_other _ _ _ _ (by decide), headerGet_set_other _ _ _ _ (by decide)]

/-- Value of the overage-rate header after the outbound quota policy. -/
theorem annot_rate_get (resp : Response) (q : QuotaInfo) :
    headerGet (quotaHeadersPolicy resp (some q)).headers "X-Quota-Overage-Rate" =
      if 0 < q.overageRate then some ("$" ++ formatDollars q.overageRate ++ "/1k")
      else headerGet resp.headers "X-Quota-Overage-Rate" := by
  unfold quotaHeadersPolicy
  dsimp only
  by_cases hr : 0 < q.overageRate <;> by_cases ho : q.isOverage = true
  · rw [if_pos hr, if_pos ho, if_pos hr,
      headerGet_set_other _ _ _ _ (by decide), headerGet_set_self]
  · rw [if_pos hr, if_neg ho, if_pos hr, headerGet_set_self]
  · rw [if_neg hr, if_pos ho, if_neg hr,
      headerGet_set_other _ _ _ _ (by decide), quotaBase_get_rate]
  · rw [if_neg hr, if_neg ho, if_neg hr, quotaBase_get_rate]

/-- Value of the warning header after the outbound quota policy. -/
theorem annot_warning_get (resp : Response) (q : QuotaInfo) :
    headerGet (quotaHeadersPolicy resp (some q)).headers "X-Quota-Warning" =
      if q.isOverage then some (quotaWarningText q)
      else headerGet resp.headers "X-Quota-Warning" := by
  unfold quotaHeadersPolicy
  dsimp only
  by_cases hr : 0 < q.overageRate <;> by_cases ho : q.isOverage = true
  · rw [if_pos hr, if_pos ho, if_pos ho, headerGet_set_self]
  · rw [if_pos hr, if_neg ho, if_neg ho,
      headerGet_set_other _ _ _ _ (by decide), quotaBase_get_warning]
  · rw [if_neg hr, if_pos ho, if_pos ho, headerGet_set_self]
  · rw [if_neg hr, if_neg ho, if_neg ho, quotaBase_get_warning]

/-- C8: the Response Annotator returns the response unmodified when no
QuotaState is present; otherwise it returns a response with identical
status and body whose headers (for a backend response that does not
itself carry the gateway's conditional quota headers) include
X-Quota-Overage-Rate exactly when the tier's overage rate is positive
and X-Quota-Warning exactly when `isOverage` is true, the warning value
embedding the estimated cost `overage / 1000 * overageRate`; at overage
5000 and rate $0.50/1k the rendered cost is "$2.50". -/
theorem quota_annotator (resp : Response) (q : QuotaInfo)
    (h1 : hasHeader resp.headers "X-Quota-Overage-Rate" = false)
    (h2 : hasHeader resp.headers "X-Quota-Warning" = false) :
    quotaHeadersPolicy resp none = resp ∧
    (quotaHeadersPolicy resp (some q)).status = resp.status ∧
    (quotaHeadersPolicy resp (some q)).body = resp.body ∧
    (hasHeader (quotaHeadersPolicy resp (some q)).headers "X-Quota-Overage-Rate" = true
      ↔ 0 < q.overageRate) ∧
    (hasHeader (quotaHeadersPolicy resp (some q)).headers "X-Quota-Warning" = true
      ↔ q.isOverage = true) ∧
    (q.isOverage = true →
      headerGet (quotaHeadersPolicy resp (some q)).headers "X-Quota-Warning"
        = some (quotaWarningText q)) ∧
    quotaWarningText (computeQuotaInfo "crawler" 105000 "2024-02-01")
      = "Quota exceeded. Current overage: 5000 requests (~$2.50)" := by
  unfold hasHeader at h1 h2
  refine ⟨rfl, rfl, rfl, ?_, ?_, ?_, by decide⟩
  · show (headerGet (quotaHeadersPolicy resp (some q)).headers
      "X-Quota-Overage-Rate").isSome = true ↔ _
    rw [annot_rate_get]
    by_cases hr : 0 < q.overageRate
    · simp [hr]
    · simp [hr, h1]
  · show (headerGet (quotaHeadersPolicy resp (some q)).headers
      "X-Quota-Warning").isSome = true ↔ _
    rw [annot_warning_get]
    by_cases ho : q.isOverage = true
    · simp [ho]
    · simp [ho, h2]
  · intro ho
    rw [annot_warning_get, if_pos ho]

/-- Closed instance of C8: the crawler-tier 105000-usage QuotaState on a
clean 200 response renders the warning header with cost "$2.50". -/
theorem quota_annotator_witness :
    hasHeader (okResponse).headers "X-Quota-Overage-Rate" = false ∧
    hasHeader (quotaHeadersPolicy okResponse
        (some (computeQuotaInfo "crawler" 105000 "2024-02-01"))).headers
      "X-Quota-Warning" = true ∧
    headerGet (quotaHeadersPolicy okResponse
        (some (computeQuotaInfo "crawler" 105000 "2024-02-01"))).headers
      "X-Quota-Warning" =
      some "Quota exceeded. Current overage: 5000 requests (~$2.50)" := by
  have h := quota_annotator okResponse (computeQuotaInfo "crawler" 105000 "2024-02-01")
    (by decide) (by decide)
  refine ⟨by decide, h.2.2.2.2.1.mpr (by decide), ?_⟩
  rw [h.2.2.2.2.2.1 (by decide), h.2.2.2.2.2.2]

/-- C10: for every rate-limit window state read from the cache, the
rendered RateLimit-Remaining and X-RateLimit-Remaining header values
equal `max(0, requestsAllowed - storedCount)` and are therefore never
negative even when the stored count exceeds the allowance, and the
rendered RateLimit-Reset value is likewise clamped at 0. -/
theorem rate_limit_headers_clamped (resp : Response) (user : Option User)
    (d : RateWindowData) (now : Int) :
    headerGet (rateLimitHeadersPolicy resp user (RLCacheRead.hit d) now).headers
        "RateLimit-Remaining" =
      some (toString (max 0 ((resolveRateLimit (userTier user) : Int) -
        (d.count.getD 0 : Int)))) ∧
    headerGet (rateLimitHeadersPolicy resp user (RLCacheRead.hit d) now).headers
        "X-RateLimit-Remaining" =
      some (toString (max 0 ((resolveRateLimit (userTier user) : Int) -
        (d.count.getD 0 : Int)))) ∧
    0 ≤ max 0 ((resolveRateLimit (userTier user) : Int) - (d.count.getD 0 : Int)) ∧
    ((resolveRateLimit (userTier user) : Int) < (d.count.getD 0 : Int) →
      max 0 ((resolveRateLimit (userTier user) : Int) - (d.count.getD 0 : Int)) = 0) ∧
    (∀ ws : Int, d.windowStart = some ws →
      headerGet (rateLimitHeadersPolicy resp user (RLCacheRead.hit d) now).headers
          "RateLimit-Reset" =
        some (toString (max 0 (jsCeilDiv (3600000 - (now - ws)) 1000))) ∧
      0 ≤ max 0 (jsCeilDiv (3600000 - (now - ws)) 1000)) := by
  refine ⟨?_, ?_, le_max_left 0 _, ?_, ?_⟩
  · unfold rateLimitHeadersPolicy
    dsimp only
    rw [headerGet_set_other _ _ _ _ (by decide), headerGet_set_other _ _ _ _ (by decide),
      headerGet_set_other _ _ _ _ (by decide), headerGet_set_other _ _ _ _ (by decide),
      headerGet_set_self]
  · unfold rateLimitHeadersPolicy
    dsimp only
    rw [headerGet_set_other _ _ _ _ (by decide), headerGet_set_self]
  · intro h
    exact max_eq_left (by omega)
  · intro ws hws
    constructor
    · unfold rateLimitHeadersPolicy
      dsimp only
      rw [hws]
      dsimp only
      rw [headerGet_set_other _ _ _ _ (by decide), headerGet_set_other _ _ _ _ (by decide),
        headerGet_set_other _ _ _ _ (by decide), headerGet_set_self]
    · exact le_max_left 0 _

/-- Closed instance of C10: a stored count of 2000 against the spider
allowance of 1388 renders remaining "0", and a half-elapsed window
renders reset "1800". -/
theorem rate_limit_headers_clamped_witness :
    headerGet (rateLimitHeadersPolicy okResponse (some spiderUser)
        (RLCacheRead.hit ⟨some 2000, some 0⟩) 1800000).headers
      "RateLimit-Remaining" = some "0" ∧
    headerGet (rateLimitHeadersPolicy okResponse (some spiderUser)
        (RLCacheRead.hit ⟨some 2000, some 0⟩) 1800000).headers
      "RateLimit-Reset" = some "1800" := by
  have h := rate_limit_headers_clamped okResponse (some spiderUser)
    ⟨some 2000, some 0⟩ 1800000
  constructor
  · rw [h.1]
    decide
  · rw [(h.2.2.2.2 0 rfl).1]
    decide

end Crawl4ai
